import Mathlib

/-!
Shallow embedding of the DIC-PADM risk predictor (src/PADMapp.py).

Numeric lab values and probabilities are embedded as rationals (`ℚ`); the
decimal literals of the source (0.222, 0.64, 11.0, ...) are exact decimals,
so `ℚ` models them faithfully for every comparison the program performs.
Python functions that catch exceptions and return `None` are embedded as
`Option`-returning functions; `dict.get` with a default is embedded by a
total lookup returning the default.
-/

namespace PADM

/-- Embeds `get_risk_level(probability, thresholds=[0.222, 0.64])`
(src/PADMapp.py lines 167-174).  The two-element Python threshold list is
embedded as a pair; the result triple is (label, css class, category id). -/
def get_risk_level (probability : ℚ) (thresholds : ℚ × ℚ := ((0.222 : ℚ), (0.64 : ℚ))) :
    String × String × ℕ :=
  if probability < thresholds.1 then ("Low Risk", "risk-low", 0)
  else if probability ≤ thresholds.2 then ("Medium Risk", "risk-medium", 1)
  else ("High Risk", "risk-high", 2)

/-- A recommendation bundle: one value of the `recommendations` dict in
`get_clinical_recommendations` (src/PADMapp.py lines 207-240).  Only the
"High Risk" entry has the extra `actions` key, embedded as an `Option`. -/
structure RecommendationBundle where
  title : String
  color : String
  recommendations : List String
  actions : Option (List String)
deriving DecidableEq

/-- Embeds `get_clinical_recommendations(risk_level)` (src/PADMapp.py lines
205-241).  The Python body builds a three-key dict and returns
`recommendations.get(risk_level, {})`; the `{}` default of `dict.get` is
embedded as `none`. -/
def get_clinical_recommendations (risk_level : String) : Option RecommendationBundle :=
  if risk_level = "Low Risk" then
    some { title := "🟢 Low Risk Clinical Recommendations"
           color := "#28a745"
           recommendations := ["📊 **Continue routine clinical monitoring**"]
           actions := none }
  else if risk_level = "Medium Risk" then
    some { title := "🟡 Medium Risk Clinical Recommendations"
           color := "#ffc107"
           recommendations :=
             ["📊 **Increase monitoring frequency**",
              "🩺 **Consider fibrin degradation products (FDP), antithrombin III等的监测**"]
           actions := none }
  else if risk_level = "High Risk" then
    some { title := "🔴 High Risk Clinical Recommendations"
           color := "#dc3545"
           recommendations :=
             ["🚨 **Immediate Action: Urgent consultation required**",
              "💉 **STAT repeat coagulation panel, CBC, fibrinogen, renal and liver function**",
              "📞 **Alert senior clinician, activate rapid response team if clinical deterioration**",
              "🩸 **Monitor for signs of microvascular thrombosis: digital ischemia, renal failure, altered mental status**"]
           actions := some
             ["Monitor for Complications:",
              "• Acute kidney injury",
              "• ARDS",
              "• Hepatic failure",
              "• Cerebral ischemia"] }
  else none

/-- Embeds the `normal_ranges` dict of `create_parameter_display`
(src/PADMapp.py lines 245-250) as a lookup by parameter name. -/
def normal_ranges (param : String) : Option (ℚ × ℚ) :=
  if param = "PT" then some ((11.0 : ℚ), (13.5 : ℚ))
  else if param = "APTT" then some ((25.0 : ℚ), (35.0 : ℚ))
  else if param = "D-Dimer" then some ((0.0 : ℚ), (0.5 : ℚ))
  else if param = "MPV" then some ((7.5 : ℚ), (11.5 : ℚ))
  else none

/-- Embeds the per-parameter normalcy test of `create_parameter_display`
(src/PADMapp.py lines 255-256):
`normal_min, normal_max = normal_ranges.get(param, (0, 0))` followed by
`is_abnormal = value < normal_min or value > normal_max`. -/
def is_abnormal (param : String) (value : ℚ) : Bool :=
  let r := (normal_ranges param).getD (0, 0)
  value < r.1 || value > r.2

/-- Embeds the loop of `create_parameter_display` (src/PADMapp.py lines
254-259) restricted to the data it computes: for each (name, value) pair of
the input dict, the abnormality flag driving the color and status text. -/
def parameter_status (values : List (String × ℚ)) : List (String × ℚ × Bool) :=
  values.map (fun pv => (pv.1, pv.2, is_abnormal pv.1 pv.2))

/-- A lab panel: the four named inputs collected by the form
(src/PADMapp.py lines 327-362, 397-402). -/
structure LabPanel where
  PT : ℚ
  APTT : ℚ
  D_Dimer : ℚ
  MPV : ℚ
deriving DecidableEq

/-- The model artifact is opaque; its one relevant capability is
`predict_proba` on a panel.  A per-call `none` embeds the exception path
that `predict_risk` catches (src/PADMapp.py lines 157-165). -/
structure ModelInfo where
  predict_proba : LabPanel → Option ℚ

/-- Embeds `predict_risk(model_info, input_data)` (src/PADMapp.py lines
157-165): on model failure the Python `except` branch returns `None`,
embedded as `none`; no fallback probability is fabricated. -/
def predict_risk (model_info : ModelInfo) (input_data : LabPanel) : Option ℚ :=
  model_info.predict_proba input_data

/-- The fixed demo panel installed by the demo-mode button when the model
failed to load (src/PADMapp.py lines 385-392), as the (name, value) dict. -/
def demo_panel : List (String × ℚ) :=
  [("PT", (18.5 : ℚ)), ("APTT", (55.0 : ℚ)), ("D-Dimer", (3.2 : ℚ)), ("MPV", (12.5 : ℚ))]

/-- The demo panel as a `LabPanel` record. -/
def demo_lab_panel : LabPanel :=
  { PT := (18.5 : ℚ), APTT := (55.0 : ℚ), D_Dimer := (3.2 : ℚ), MPV := (12.5 : ℚ) }

/-- The data content of the results card rendered by `main` when a
prediction succeeds (src/PADMapp.py lines 406-479). -/
structure RiskDisplay where
  probability : ℚ
  risk_level : String
  risk_class : String
  risk_idx : ℕ
  recommendations : Option RecommendationBundle
deriving DecidableEq

/-- The outcome of one run of the right-hand column of `main`
(src/PADMapp.py lines 376-504), as data:
`demoOffer vs` is the model-load-failure branch (lines 380-393), which
shows an error message, offers the demo button that installs `vs` as the
input values, and returns early with no risk display;
`predictionFailed` is the branch where `predict_risk` returned `None`
(line 406 guard fails): an error message was shown, no risk display;
`display d` is the successful results card; `placeholder` is the
no-prediction-yet branch (lines 481-504). -/
inductive MainView where
  | demoOffer (demo_values : List (String × ℚ))
  | predictionFailed
  | display (d : RiskDisplay)
  | placeholder
deriving DecidableEq

/-- Embeds the control flow of the results column of `main`
(src/PADMapp.py lines 376-504): load result, the `prediction_made` session
flag, and the submitted panel determine which view is produced. -/
def main (model_info : Option ModelInfo) (prediction_made : Bool)
    (input_values : LabPanel) : MainView :=
  match model_info with
  | none => .demoOffer demo_panel
  | some mi =>
    if prediction_made then
      match predict_risk mi input_values with
      | none => .predictionFailed
      | some probability =>
        let rl := get_risk_level probability
        .display { probability := probability
                   risk_level := rl.1
                   risk_class := rl.2.1
                   risk_idx := rl.2.2
                   recommendations := get_clinical_recommendations rl.1 }
    else .placeholder

end PADM

namespace PADM

/-- Claim C1: for every probability p in [0, 1], `get_risk_level` maps p to
the tier given by the fixed thresholds (0.222, 0.64) with exact boundary
semantics: p < 0.222 yields Low, 0.222 ≤ p ≤ 0.64 yields Medium (so both
boundary values yield Medium), and p > 0.64 yields High. -/
theorem get_risk_level_thresholds (p : ℚ) (h0 : 0 ≤ p) (h1 : p ≤ 1) :
    (p < 0.222 → get_risk_level p = ("Low Risk", "risk-low", 0)) ∧
    (0.222 ≤ p → p ≤ 0.64 → get_risk_level p = ("Medium Risk", "risk-medium", 1)) ∧
    (0.64 < p → get_risk_level p = ("High Risk", "risk-high", 2)) := by
  refine ⟨fun h => ?_, fun hl hh => ?_, fun h => ?_⟩
  · simp [get_risk_level, h]
  · have h2 : ¬ p < 0.222 := not_lt.mpr hl
    simp [get_risk_level, h2, hh]
  · have h2 : ¬ p < 0.222 := by push_neg; linarith
    have h3 : ¬ p ≤ 0.64 := not_le.mpr h
    simp [get_risk_level, h2, h3]

/-- Claim C1 witness: the theorem applied at the boundary p = 0.222. -/
theorem get_risk_level_thresholds_witness :
    get_risk_level (0.222 : ℚ) = ("Medium Risk", "risk-medium", 1) :=
  (get_risk_level_thresholds 0.222 (by norm_num) (by norm_num)).2.1
    (by norm_num) (by norm_num)

/-- Claim C2 counterexample: at p = -0.01 and p = 1.01 the code does not
fail at all — `get_risk_level` has no validation and returns a tier for
both, so "fails fast with an InvalidProbability error rather than returning
a tier" is false at these explicit inputs. -/
theorem get_risk_level_no_range_check :
    get_risk_level (-0.01 : ℚ) = ("Low Risk", "risk-low", 0) ∧
    get_risk_level (1.01 : ℚ) = ("High Risk", "risk-high", 2) := by
  constructor <;> norm_num [get_risk_level]

/-- Claim C2 (amended): `get_risk_level` performs no range validation and
is total over all probabilities; a probability outside [0,1] silently falls
into the nearest tier — every p < 0 returns Low and every p > 1 returns
High — and no InvalidProbability failure exists. -/
theorem get_risk_level_total_outside_unit (p : ℚ) :
    (p < 0 → get_risk_level p = ("Low Risk", "risk-low", 0)) ∧
    (1 < p → get_risk_level p = ("High Risk", "risk-high", 2)) := by
  refine ⟨fun h => ?_, fun h => ?_⟩
  · have h2 : p < 0.222 := by linarith
    simp [get_risk_level, h2]
  · have h2 : ¬ p < 0.222 := by push_neg; linarith
    have h3 : ¬ p ≤ 0.64 := by push_neg; linarith
    simp [get_risk_level, h2, h3]

/-- Claim C2 witness: the amended theorem applied at p = 1.01. -/
theorem get_risk_level_total_outside_unit_witness :
    get_risk_level (1.01 : ℚ) = ("High Risk", "risk-high", 2) :=
  (get_risk_level_total_outside_unit 1.01).2 (by norm_num)

/-- Claim C3: the High tier bundle has a non-empty secondary `actions`
list of immediate considerations, the Low and Medium bundles have none,
and every tier's bundle has a title and a non-empty recommendation list. -/
theorem get_clinical_recommendations_bundles :
    (∃ b, get_clinical_recommendations "High Risk" = some b ∧
       b.title ≠ "" ∧ b.recommendations ≠ [] ∧ ∃ l, b.actions = some l ∧ l ≠ []) ∧
    (∃ b, get_clinical_recommendations "Low Risk" = some b ∧
       b.title ≠ "" ∧ b.recommendations ≠ [] ∧ b.actions = none) ∧
    (∃ b, get_clinical_recommendations "Medium Risk" = some b ∧
       b.title ≠ "" ∧ b.recommendations ≠ [] ∧ b.actions = none) := by
  refine ⟨⟨_, rfl, ?_, ?_, _, rfl, ?_⟩, ⟨_, rfl, ?_, ?_, rfl⟩, ⟨_, rfl, ?_, ?_, rfl⟩⟩ <;> decide

/-- Claim C4: for each of the four parameters the normalcy check computes
is_abnormal as (value < normal_min OR value > normal_max) against the
static ranges PT(11.0,13.5), APTT(25.0,35.0), D-Dimer(0.0,0.5),
MPV(7.5,11.5), inclusive bounds counting as normal; and the panel
{PT:12.0, APTT:30.0, D-Dimer:0.5, MPV:10.0} is marked all normal,
including the boundary value D-Dimer = 0.5. -/
theorem create_parameter_display_normalcy :
    (∀ v : ℚ, is_abnormal "PT" v = true ↔ (v < 11 ∨ v > 13.5)) ∧
    (∀ v : ℚ, is_abnormal "APTT" v = true ↔ (v < 25 ∨ v > 35)) ∧
    (∀ v : ℚ, is_abnormal "D-Dimer" v = true ↔ (v < 0 ∨ v > 0.5)) ∧
    (∀ v : ℚ, is_abnormal "MPV" v = true ↔ (v < 7.5 ∨ v > 11.5)) ∧
    parameter_status [("PT", 12), ("APTT", 30), ("D-Dimer", 0.5), ("MPV", 10)] =
      [("PT", 12, false), ("APTT", 30, false), ("D-Dimer", 0.5, false), ("MPV", 10, false)] := by
  refine ⟨fun v => ?_, fun v => ?_, fun v => ?_, fun v => ?_, ?_⟩
  · simp [is_abnormal, normal_ranges]
    norm_num
  · simp [is_abnormal, normal_ranges]
    norm_num
  · simp [is_abnormal, normal_ranges]
    norm_num
  · simp [is_abnormal, normal_ranges]
  · simp only [parameter_status, is_abnormal, normal_ranges, List.map, String.reduceEq,
      reduceIte, Option.getD_some]
    norm_num

end PADM

namespace PADM

/-- Claim C5: when the model artifact fails to load (`load_model` returns
`None`), `main` takes the degraded demo branch, which installs the fixed
example panel (PT=18.5, APTT=55.0, D-Dimer=3.2, MPV=12.5) and does not
crash; and that panel can still be run through the threshold mapper and
recommendation lookup: for any stub probability, the pipeline on the demo
panel produces a display whose recommendation lookup succeeds. -/
theorem main_demo_mode_degraded :
    (∀ (b : Bool) (panel : LabPanel), main none b panel = .demoOffer demo_panel) ∧
    demo_panel = [("PT", 18.5), ("APTT", 55.0), ("D-Dimer", 3.2), ("MPV", 12.5)] ∧
    (∀ p : ℚ, ∃ d : RiskDisplay,
      main (some ⟨fun _ => some p⟩) true demo_lab_panel = .display d ∧
      ∃ b, d.recommendations = some b) := by
  refine ⟨fun b panel => rfl, rfl, fun p => ?_⟩
  refine ⟨_, rfl, ?_⟩
  show ∃ b, get_clinical_recommendations (get_risk_level p).1 = some b
  unfold get_risk_level
  split_ifs <;> exact ⟨_, rfl⟩

/-- Claim C6: if the loaded model returns probability 0.75 for a panel, the
pipeline yields the High tier (label "High Risk", category id 2), and the
resulting bundle has a title containing "High Risk" and a recommendation
list containing the urgent-consultation item. -/
theorem pipeline_high_risk_end_to_end :
    ∃ d b, main (some ⟨fun _ => some (0.75 : ℚ)⟩) true demo_lab_panel = .display d ∧
      d.risk_level = "High Risk" ∧ d.risk_idx = 2 ∧ d.recommendations = some b ∧
      (∃ pre post, b.title = pre ++ "High Risk" ++ post) ∧
      "🚨 **Immediate Action: Urgent consultation required**" ∈ b.recommendations := by
  have h : get_risk_level (0.75 : ℚ) = ("High Risk", "risk-high", 2) := by
    norm_num [get_risk_level]
  simp only [main, predict_risk, h, if_true]
  exact ⟨_, _, rfl, rfl, rfl, rfl, ⟨"🔴 ", " Clinical Recommendations", by decide⟩, by decide⟩

/-- Claim C7 counterexample: at the explicit out-of-enum tier string
"Severe Risk" the lookup does not fail with any UnknownTier error: it
returns normally with the `dict.get` default `{}` (embedded as `none`);
the embedded codomain has no error value at all. -/
theorem get_clinical_recommendations_unknown_no_error :
    get_clinical_recommendations "Severe Risk" = none := by
  simp [get_clinical_recommendations]

/-- Claim C7 (amended): for any tier value outside the closed set
{Low Risk, Medium Risk, High Risk}, the recommendation lookup does not
raise: it returns the empty bundle, the `{}` default of `dict.get`
(embedded as `none`), rather than failing with an UnknownTier error. -/
theorem get_clinical_recommendations_default (s : String)
    (h1 : s ≠ "Low Risk") (h2 : s ≠ "Medium Risk") (h3 : s ≠ "High Risk") :
    get_clinical_recommendations s = none := by
  simp [get_clinical_recommendations, h1, h2, h3]

/-- Claim C7 witness: the amended theorem applied at "Unknown". -/
theorem get_clinical_recommendations_default_witness :
    get_clinical_recommendations "Unknown" = none :=
  get_clinical_recommendations_default "Unknown" (by decide) (by decide) (by decide)

/-- Claim C8: when the per-call prediction fails (`predict_risk` returns
`None`), `main` surfaces the failure branch and produces no risk display:
no tier, no recommendations, no fabricated fallback probability. -/
theorem predict_failure_withholds_display (mi : ModelInfo) (panel : LabPanel)
    (h : predict_risk mi panel = none) :
    main (some mi) true panel = .predictionFailed ∧
    ∀ d : RiskDisplay, main (some mi) true panel ≠ .display d := by
  have hm : main (some mi) true panel = .predictionFailed := by
    simp only [main, h, if_true]
  refine ⟨hm, fun d hd => ?_⟩
  rw [hm] at hd
  exact MainView.noConfusion hd

/-- Claim C8 witness: the theorem applied to a model whose prediction
always fails, on the demo panel. -/
theorem predict_failure_withholds_display_witness :
    main (some ⟨fun _ => none⟩) true demo_lab_panel = .predictionFailed :=
  (predict_failure_withholds_display ⟨fun _ => none⟩ demo_lab_panel rfl).1

/-- Claim C9: the tier mapping is monotone — p ≤ q implies the category id
of `get_risk_level p` is at most that of `get_risk_level q` — and the label
and CSS class always correspond to the id: every result is one of the three
fixed (label, class, id) triples. -/
theorem get_risk_level_monotone :
    (∀ p q : ℚ, p ≤ q → (get_risk_level p).2.2 ≤ (get_risk_level q).2.2) ∧
    (∀ p : ℚ, get_risk_level p = ("Low Risk", "risk-low", 0) ∨
      get_risk_level p = ("Medium Risk", "risk-medium", 1) ∨
      get_risk_level p = ("High Risk", "risk-high", 2)) := by
  constructor
  · intro p q hpq
    simp only [get_risk_level]
    split_ifs <;> simp_all <;> linarith
  · intro p
    simp only [get_risk_level]
    split_ifs <;> simp

/-- Claim C9 witness: the monotone part applied at p = 0, q = 1. -/
theorem get_risk_level_monotone_witness :
    (get_risk_level (0 : ℚ)).2.2 ≤ (get_risk_level (1 : ℚ)).2.2 :=
  get_risk_level_monotone.1 0 1 (by norm_num)

/-- Claim C10: the normalcy check is total over arbitrary parameter names:
a name outside {PT, APTT, D-Dimer, MPV} hits no lookup error but the
`dict.get` default range (0, 0), so it is flagged abnormal exactly when its
value is nonzero. -/
theorem unknown_parameter_defaults (name : String) (h1 : name ≠ "PT")
    (h2 : name ≠ "APTT") (h3 : name ≠ "D-Dimer") (h4 : name ≠ "MPV") :
    normal_ranges name = none ∧ ∀ v : ℚ, (is_abnormal name v = true ↔ v ≠ 0) := by
  have hn : normal_ranges name = none := by
    simp [normal_ranges, h1, h2, h3, h4]
  refine ⟨hn, fun v => ?_⟩
  simp only [is_abnormal, hn, Option.getD_none, Bool.or_eq_true, decide_eq_true_eq,
    gt_iff_lt]
  exact lt_or_lt_iff_ne

/-- Claim C10 witness: the theorem applied at name = "Fibrinogen", v = 2. -/
theorem unknown_parameter_defaults_witness :
    normal_ranges "Fibrinogen" = none ∧
    (is_abnormal "Fibrinogen" (2 : ℚ) = true ↔ (2 : ℚ) ≠ 0) := by
  have h := unknown_parameter_defaults "Fibrinogen" (by decide) (by decide) (by decide)
    (by decide)
  exact ⟨h.1, h.2 2⟩

end PADM
